import Mathlib

/-
Shallow embedding of programs/blueshift_anchor_flash_loan/src/lib.rs,
an Anchor flash-loan program with two entry points, borrow and repay.

Machine integers are modelled as Nat with explicit bounds or reductions
modulo 2^64 where the source narrows; byte arrays are lists of Nat taken
modulo 256 at the point where the source reinterprets them as integers;
fallible steps return Option or an explicit error result. A slice access
that can abort in the source (data[0..8], data[8..16] on short data) is
modelled as a distinct panic outcome, separate from protocol errors.
-/

namespace FlashLoan

abbrev Byte := Nat
abbrev Pubkey := Nat

/-- 2 ^ 64, the number of values of u64. -/
def U64_MOD : Nat := 18446744073709551616

/-- 2 ^ 64 - 1, the largest u64. -/
def U64_MAX : Nat := 18446744073709551615

/-- The program identity declared by declare_id!("2222...2222") in lib.rs,
read as the base58-decoded 32-byte key, interpreted as a big-endian natural. -/
def programId : Pubkey :=
  6838437170304796090096992438437080572861309782667532790148717074004238406135

/-- Anchor instruction discriminator of borrow: first 8 bytes of
sha256 of the string global:borrow. -/
def borrowDiscriminator : List Byte := [228, 253, 131, 202, 207, 116, 89, 18]

/-- Anchor instruction discriminator of repay (instruction::Repay::DISCRIMINATOR
in lib.rs line 72): first 8 bytes of sha256 of the string global:repay. -/
def repayDiscriminator : List Byte := [234, 103, 67, 82, 208, 234, 219, 166]

/-- One entry of the account list of an introspected instruction
(solana AccountMeta, of which the code reads only the pubkey). -/
structure AccountMeta where
  pubkey : Pubkey
deriving DecidableEq

/-- An instruction as decoded by instruction introspection:
target program, account list, raw data bytes. -/
structure Instruction where
  program_id : Pubkey
  accounts : List AccountMeta
  data : List Byte
deriving DecidableEq

/-- The instructions sysvar: the position of the currently executing
instruction and the ordered instruction list of the enclosing transaction.
The sysvar data serializes the instruction count as a u16 LE header,
which lib.rs line 66 reads back; here the count is the list length. -/
structure InstructionSysvar where
  currentIndex : Nat
  instructions : List Instruction
deriving DecidableEq

/-- load_current_index_checked: position of the executing instruction. -/
def load_current_index_checked (s : InstructionSysvar) : Nat :=
  s.currentIndex

/-- The u16 instruction count read from the first two bytes of the sysvar
data (lib.rs line 66). -/
def call_count (s : InstructionSysvar) : Nat :=
  s.instructions.length

/-- load_instruction_at_checked: decode the instruction at an index,
returning none when the index is out of range. -/
def load_instruction_at_checked (i : Nat) (s : InstructionSysvar) : Option Instruction :=
  s.instructions[i]?

/-- The accounts of the Loan context that the two operations compare or move
funds between: the borrower associated token account and the protocol
(reserve) associated token account, plus the instructions sysvar. -/
structure LoanCtx where
  borrowerAta : Pubkey
  protocolAta : Pubkey
  instructions : InstructionSysvar
deriving DecidableEq

/-- The token balances of the two token accounts (u64 values). -/
structure LoanState where
  protocolAtaBalance : Nat
  borrowerAtaBalance : Nat
deriving DecidableEq

/-- The error enum of lib.rs (error_code ProtocolError). -/
inductive ProtocolError where
  | InvalidIx
  | InvalidInstructionIndex
  | InvalidAmount
  | NotEnoughFunds
  | ProgramMismatch
  | InvalidProgram
  | InvalidBorrowerAta
  | InvalidProtocolAta
  | MissingRepayIx
  | MissingBorrowIx
  | Overflow
deriving DecidableEq

/-- An error propagated out of an entry point: either a ProtocolError of this
program, or an error of the SPL token program surfaced through the transfer
CPI (per the external interface, transfer fails when the source balance is
insufficient). -/
inductive TxError where
  | protocol (e : ProtocolError)
  | tokenInsufficientFunds
deriving DecidableEq

/-- Outcome of running an entry point: success with the resulting balances,
an error with the balances at the moment of the error (before the runtime
rolls the transaction back), or an abort through an out-of-range slice
access in the source (a Rust panic). -/
inductive ExecResult where
  | ok (st : LoanState)
  | err (e : TxError) (st : LoanState)
  | panic
deriving DecidableEq

/-- The external fungible-token transfer primitive: moves amount from one
balance to the other, failing when the source balance is insufficient. -/
def transfer (fromBalance toBalance amount : Nat) : Option (Nat × Nat) :=
  if fromBalance < amount then none
  else some (fromBalance - amount, toBalance + amount)

/-- The balances after the borrow-leg transfer of amount from the protocol
token account to the borrower token account. -/
def after_transfer (st : LoanState) (amount : Nat) : LoanState :=
  ⟨st.protocolAtaBalance - amount, st.borrowerAtaBalance + amount⟩

/-- The checks borrow performs on the fetched last instruction of the
transaction (lib.rs lines 71 to 76), in source order: program identity,
then the first 8 data bytes against the repay discriminator (a slice
data[0..8] that aborts when the data is shorter than 8 bytes), then the
account at position 3 against the borrower token account, then the account
at position 4 against the protocol token account. List.get? models
Vec::get, so a missing entry yields the corresponding protocol error
through ok_or rather than an abort. -/
def repay_ix_checks (ctx : LoanCtx) (st1 : LoanState) (repay_ix : Instruction) :
    ExecResult :=
  if repay_ix.program_id ≠ programId then .err (.protocol .InvalidProgram) st1
  else if repay_ix.data.length < 8 then .panic
  else if repay_ix.data.take 8 ≠ repayDiscriminator then .err (.protocol .InvalidIx) st1
  else
    match repay_ix.accounts[3]? with
    | none => .err (.protocol .InvalidBorrowerAta) st1
    | some a3 =>
      if a3.pubkey ≠ ctx.borrowerAta then .err (.protocol .InvalidBorrowerAta) st1
      else
        match repay_ix.accounts[4]? with
        | none => .err (.protocol .InvalidProtocolAta) st1
        | some a4 =>
          if a4.pubkey ≠ ctx.protocolAta then .err (.protocol .InvalidProtocolAta) st1
          else .ok st1

/-- The borrow entry point (lib.rs lines 24 to 82): require borrow_amount
positive, transfer the amount from the protocol token account to the
borrower token account under the derived protocol authority, then require
the current instruction index to be 0, fetch the last instruction of the
transaction (index call_count minus 1; MissingRepayIx when absent), and run
the checks of repay_ix_checks on it. -/
def borrow (ctx : LoanCtx) (st : LoanState) (borrow_amount : Nat) : ExecResult :=
  if 0 < borrow_amount then
    match transfer st.protocolAtaBalance st.borrowerAtaBalance borrow_amount with
    | none => .err .tokenInsufficientFunds st
    | some (p, b) =>
      let st1 : LoanState := ⟨p, b⟩
      if load_current_index_checked ctx.instructions = 0 then
        match load_instruction_at_checked (call_count ctx.instructions - 1)
            ctx.instructions with
        | some repay_ix => repay_ix_checks ctx st1 repay_ix
        | none => .err (.protocol .MissingRepayIx) st1
      else .err (.protocol .InvalidIx) st1
  else .err (.protocol .InvalidAmount) st

/-- u64::from_le_bytes over a list of bytes; each byte is reduced modulo 256
as the u8 type of the source guarantees. -/
def u64_from_le_bytes (bs : List Byte) : Nat :=
  bs.foldr (fun b acc => b % 256 + 256 * acc) 0

/-- u64::to_le_bytes: the 8 little-endian bytes of a u64 value, used by the
Anchor-generated encoder of the Borrow instruction payload
(tag of 8 bytes followed by the amount as u64 LE). -/
def u64_to_le_bytes (a : Nat) : List Byte :=
  [a % 256, a / 256 % 256, a / 65536 % 256, a / 16777216 % 256,
   a / 4294967296 % 256, a / 1099511627776 % 256,
   a / 281474976710656 % 256, a / 72057594037927936 % 256]

/-- The full 16-byte data of an encoded Borrow instruction. -/
def borrow_ix_data (amount : Nat) : List Byte :=
  borrowDiscriminator ++ u64_to_le_bytes amount

/-- The fee of the repay entry point (lib.rs line 98): the amount is widened
to u128, multiplied by the hardcoded 500 basis points (checked_mul, which
cannot overflow u128 for a u64 amount), divided by 10000 (checked_div by a
nonzero constant, which cannot fail), and narrowed back to u64 (the cast
as u64, modelled by the reduction modulo 2 ^ 64). -/
def fee (amount : Nat) : Nat :=
  (amount * 500 / 10000) % U64_MOD

/-- The repay entry point (lib.rs lines 84 to 112): fetch the instruction at
index 0 of the transaction (MissingBorrowIx when absent), copy its data
bytes 8 to 16 (a slice that aborts when the data is shorter than 16 bytes)
and decode them as a u64 LE amount, add the fee with checked_add (Overflow
when the sum exceeds U64_MAX), and transfer the total from the borrower
token account back to the protocol token account. -/
def repay (ctx : LoanCtx) (st : LoanState) : ExecResult :=
  match load_instruction_at_checked 0 ctx.instructions with
  | none => .err (.protocol .MissingBorrowIx) st
  | some borrow_ix =>
    if borrow_ix.data.length < 16 then .panic
    else
      let amount_borrowed := u64_from_le_bytes ((borrow_ix.data.drop 8).take 8)
      if U64_MAX < amount_borrowed + fee amount_borrowed then
        .err (.protocol .Overflow) st
      else
        match transfer st.borrowerAtaBalance st.protocolAtaBalance
            (amount_borrowed + fee amount_borrowed) with
        | none => .err .tokenInsufficientFunds st
        | some (b, p) => .ok ⟨p, b⟩

/-
Concrete fixtures used by counterexamples and witnesses.
-/

/-- Sample borrower associated token account key. -/
def borrowerAtaKey : Pubkey := 1001

/-- Sample protocol (reserve) associated token account key. -/
def protocolAtaKey : Pubkey := 1002

/-- A sample account list whose entries at positions 3 and 4 are the borrower
and protocol token accounts, as the repay instruction of the Loan context
lays them out (borrower, protocol, mint, borrower ata, protocol ata, ...). -/
def sampleAccounts : List AccountMeta :=
  [⟨11⟩, ⟨12⟩, ⟨13⟩, ⟨borrowerAtaKey⟩, ⟨protocolAtaKey⟩]

/-- A well-formed Borrow instruction for amount 5. -/
def sampleBorrowIx : Instruction :=
  ⟨programId, sampleAccounts, borrow_ix_data 5⟩

/-- A well-formed Repay instruction matching sampleAccounts. -/
def sampleRepayIx : Instruction :=
  ⟨programId, sampleAccounts, repayDiscriminator⟩

/-- A well-formed flash-loan transaction: Borrow first, Repay last,
with borrow executing at index 0. -/
def ctxGood : LoanCtx :=
  ⟨borrowerAtaKey, protocolAtaKey, ⟨0, [sampleBorrowIx, sampleRepayIx]⟩⟩

/-- Initial balances: 100 tokens in the reserve, 0 with the borrower. -/
def stGood : LoanState := ⟨100, 0⟩

/-- A transaction containing only the Borrow instruction. -/
def ctxOnlyBorrow : LoanCtx :=
  ⟨borrowerAtaKey, protocolAtaKey, ⟨0, [sampleBorrowIx]⟩⟩

/-- A Repay-tagged instruction from a different program. -/
def wrongProgramRepayIx : Instruction :=
  ⟨5555, sampleAccounts, repayDiscriminator⟩

/-- A transaction whose last instruction targets a different program. -/
def ctxWrongProgram : LoanCtx :=
  ⟨borrowerAtaKey, protocolAtaKey, ⟨0, [sampleBorrowIx, wrongProgramRepayIx]⟩⟩

/-- A Repay instruction carrying only 3 accounts. -/
def fewAccountsRepayIx : Instruction :=
  ⟨programId, [⟨11⟩, ⟨12⟩, ⟨13⟩], repayDiscriminator⟩

/-- A transaction whose last instruction has too few accounts. -/
def ctxFewAccounts : LoanCtx :=
  ⟨borrowerAtaKey, protocolAtaKey, ⟨0, [sampleBorrowIx, fewAccountsRepayIx]⟩⟩

/-- A transaction with Repay placed before Borrow: the borrow instruction
executes at index 1. -/
def ctxRepayFirst : LoanCtx :=
  ⟨borrowerAtaKey, protocolAtaKey, ⟨1, [sampleRepayIx, sampleBorrowIx]⟩⟩

/-- A Borrow instruction for the largest u64 amount. -/
def maxBorrowIx : Instruction :=
  ⟨programId, sampleAccounts, borrow_ix_data U64_MAX⟩

/-- A transaction whose Borrow amount makes the repay total overflow u64. -/
def ctxMaxBorrow : LoanCtx :=
  ⟨borrowerAtaKey, protocolAtaKey, ⟨0, [maxBorrowIx, sampleRepayIx]⟩⟩

/-- A transaction whose first instruction is a Repay instruction: its data is
8 bytes long, shorter than the 16 bytes the repay decoder slices. -/
def ctxRepayOnly : LoanCtx :=
  ⟨borrowerAtaKey, protocolAtaKey, ⟨0, [sampleRepayIx]⟩⟩

/-
Helper lemmas.
-/

/-- When the amount is positive, the reserve balance suffices, the current
index is 0 and the last instruction of the transaction is fetched, borrow
reduces to the checks on that instruction, run on the post-transfer
balances. -/
theorem borrow_reaches_checks (ctx : LoanCtx) (st : LoanState) (a : Nat)
    (last_ix : Instruction)
    (h0 : 0 < a) (hbal : a ≤ st.protocolAtaBalance)
    (hidx : load_current_index_checked ctx.instructions = 0)
    (hlast : load_instruction_at_checked (call_count ctx.instructions - 1)
      ctx.instructions = some last_ix) :
    borrow ctx st a = repay_ix_checks ctx (after_transfer st a) last_ix := by
  unfold borrow transfer after_transfer
  rw [if_pos h0, if_neg (Nat.not_lt.mpr hbal)]
  simp [hidx, hlast]

/-- A byte list whose first 8 bytes form the repay discriminator has at
least 8 bytes. -/
theorem take8_ge (l : List Byte) (htag : l.take 8 = repayDiscriminator) :
    ¬ l.length < 8 := by
  intro hl
  have hlen := congrArg List.length htag
  simp [List.length_take, repayDiscriminator] at hlen
  omega

/-- Decoding the 8 little-endian bytes of a u64 value gives the value back. -/
theorem u64_le_bytes_roundtrip (a : Nat) (ha : a ≤ U64_MAX) :
    u64_from_le_bytes (u64_to_le_bytes a) = a := by
  unfold u64_from_le_bytes u64_to_le_bytes U64_MAX at *
  simp only [List.foldr]
  omega

/-
Claim theorems.
-/

/-- Claim C1: whenever the borrow operation returns success, the borrow call
executes at instruction index 0 of the transaction, and the last instruction
of the transaction targets this program, carries the Repay tag in its first
8 data bytes, and references the same borrower token account at account
position 3 and the same protocol (reserve) token account at account
position 4 as the borrow call. -/
theorem borrow_success_requires_repay_last (ctx : LoanCtx) (st : LoanState)
    (a : Nat) (st' : LoanState)
    (h : borrow ctx st a = .ok st') :
    load_current_index_checked ctx.instructions = 0 ∧
    ∃ last_ix, load_instruction_at_checked (call_count ctx.instructions - 1)
        ctx.instructions = some last_ix ∧
      last_ix.program_id = programId ∧
      last_ix.data.take 8 = repayDiscriminator ∧
      (∃ m3, last_ix.accounts[3]? = some m3 ∧ m3.pubkey = ctx.borrowerAta) ∧
      (∃ m4, last_ix.accounts[4]? = some m4 ∧ m4.pubkey = ctx.protocolAta) := by
  unfold borrow at h
  split at h
  case isFalse => simp at h
  case isTrue h0 =>
    split at h
    case h_1 htr => simp at h
    case h_2 p b htr =>
      split at h
      case isFalse => simp at h
      case isTrue hidx =>
        split at h
        case h_2 => simp at h
        case h_1 repay_ix hlast =>
          refine ⟨hidx, repay_ix, hlast, ?_⟩
          unfold repay_ix_checks at h
          split at h
          case isTrue => simp at h
          case isFalse hpid =>
            split at h
            case isTrue => simp at h
            case isFalse hlen =>
              split at h
              case isTrue => simp at h
              case isFalse htag =>
                push_neg at hpid htag
                refine ⟨hpid, htag, ?_⟩
                split at h
                case h_1 => simp at h
                case h_2 m3 hm3 =>
                  split at h
                  case isTrue => simp at h
                  case isFalse hne3 =>
                    push_neg at hne3
                    refine ⟨⟨m3, hm3, hne3⟩, ?_⟩
                    split at h
                    case h_1 => simp at h
                    case h_2 m4 hm4 =>
                      split at h
                      case isTrue => simp at h
                      case isFalse hne4 =>
                        push_neg at hne4
                        exact ⟨m4, hm4, hne4⟩

/-- Witness for C1: on the well-formed sample transaction, borrow succeeds
and the invariant holds. -/
theorem borrow_success_requires_repay_last_witness :
    load_current_index_checked ctxGood.instructions = 0 ∧
    ∃ last_ix, load_instruction_at_checked (call_count ctxGood.instructions - 1)
        ctxGood.instructions = some last_ix ∧
      last_ix.program_id = programId ∧
      last_ix.data.take 8 = repayDiscriminator ∧
      (∃ m3, last_ix.accounts[3]? = some m3 ∧ m3.pubkey = ctxGood.borrowerAta) ∧
      (∃ m4, last_ix.accounts[4]? = some m4 ∧ m4.pubkey = ctxGood.protocolAta) :=
  borrow_success_requires_repay_last ctxGood stGood 5 ⟨95, 5⟩ (by decide)

/-- Counterexample for C2: on a transaction containing only the Borrow call,
borrow fails with InvalidIx, not with MissingRepayIx. The fetched last
instruction (index 0) is the Borrow call itself: it passes the program
identity check and fails the Repay tag check. -/
theorem borrow_only_tx_counterexample :
    borrow ctxOnlyBorrow stGood 5 =
      .err (.protocol .InvalidIx) (after_transfer stGood 5) ∧
    ProtocolError.InvalidIx ≠ ProtocolError.MissingRepayIx := by
  decide

/-- Claim C2 (amended): for every transaction whose instruction list contains
only the Borrow call (a Borrow-tagged instruction of this program) and no
other instruction, the borrow operation fails with the InvalidIx error:
the last instruction it fetches is the Borrow call itself, whose first
8 data bytes are not the Repay tag. -/
theorem borrow_only_tx_invalid_ix (ctx : LoanCtx) (st : LoanState) (a : Nat)
    (ix : Instruction)
    (h0 : 0 < a) (hbal : a ≤ st.protocolAtaBalance)
    (hidx : load_current_index_checked ctx.instructions = 0)
    (hone : ctx.instructions.instructions = [ix])
    (hpid : ix.program_id = programId)
    (htag : ix.data.take 8 = borrowDiscriminator) :
    borrow ctx st a = .err (.protocol .InvalidIx) (after_transfer st a) := by
  have hlast : load_instruction_at_checked (call_count ctx.instructions - 1)
      ctx.instructions = some ix := by
    unfold load_instruction_at_checked call_count
    rw [hone]
    rfl
  have hne : ix.data.take 8 ≠ repayDiscriminator := by
    rw [htag]; decide
  have hlen : ¬ ix.data.length < 8 := by
    have hl := congrArg List.length htag
    simp [List.length_take, borrowDiscriminator] at hl
    omega
  rw [borrow_reaches_checks ctx st a ix h0 hbal hidx hlast]
  unfold repay_ix_checks
  simp [hpid, hlen, hne]

/-- Witness for the amended C2: the concrete single-instruction transaction
fails with InvalidIx. -/
theorem borrow_only_tx_invalid_ix_witness :
    borrow ctxOnlyBorrow stGood 5 =
      .err (.protocol .InvalidIx) (after_transfer stGood 5) :=
  borrow_only_tx_invalid_ix ctxOnlyBorrow stGood 5 sampleBorrowIx
    (by decide) (by decide) (by decide) (by decide) (by decide) (by decide)

/-- Claim C3: for every positive u64 amount, the fee of the repay operation
is the truncating division floor(amount * 500 / 10000), and the total due
amount + fee fits in u64 whenever the amount is at most U64_MAX / 1000. -/
theorem fee_is_floor_and_total_no_overflow (a : Nat) (h0 : 0 < a)
    (ha : a ≤ U64_MAX) :
    fee a = a * 500 / 10000 ∧ (a ≤ U64_MAX / 1000 → a + fee a ≤ U64_MAX) := by
  unfold fee U64_MOD U64_MAX at *
  omega

/-- Witness for C3: at amount 10000 the fee is 500 and the total fits. -/
theorem fee_is_floor_and_total_no_overflow_witness :
    fee 10000 = 500 ∧ 10000 + fee 10000 ≤ U64_MAX := by
  have h := fee_is_floor_and_total_no_overflow 10000 (by decide) (by decide)
  exact ⟨by rw [h.1], h.2 (by decide)⟩

/-- Claim C4: borrow with amount 0 fails with InvalidAmount and returns the
balances unchanged: the zero check precedes the transfer step. -/
theorem borrow_zero_amount_invalid (ctx : LoanCtx) (st : LoanState) :
    borrow ctx st 0 = .err (.protocol .InvalidAmount) st := rfl

/-- Claim C5: borrow with a positive amount covered by the reserve balance,
executing at a transaction position other than 0 (for example with Repay
placed before Borrow), fails with the InvalidIx error. -/
theorem borrow_not_first_invalid_ix (ctx : LoanCtx) (st : LoanState) (a : Nat)
    (h0 : 0 < a) (hbal : a ≤ st.protocolAtaBalance)
    (hidx : load_current_index_checked ctx.instructions ≠ 0) :
    borrow ctx st a = .err (.protocol .InvalidIx) (after_transfer st a) := by
  unfold borrow transfer after_transfer
  rw [if_pos h0, if_neg (Nat.not_lt.mpr hbal)]
  simp [hidx]

/-- Witness for C5: a transaction with Repay before Borrow (borrow executing
at index 1) fails with InvalidIx. -/
theorem borrow_not_first_invalid_ix_witness :
    borrow ctxRepayFirst stGood 5 =
      .err (.protocol .InvalidIx) (after_transfer stGood 5) :=
  borrow_not_first_invalid_ix ctxRepayFirst stGood 5
    (by decide) (by decide) (by decide)

/-- Claim C6: once borrow has fetched the last instruction of the
transaction, it checks it in source order and fails with the error of the
first mismatch: program identity not equal to this program gives
InvalidProgram; first 8 data bytes not equal to the Repay tag gives
InvalidIx; the account at position 3 different from the borrower token
account gives InvalidBorrowerAta; the account at position 4 different from
the protocol token account gives InvalidProtocolAta. -/
theorem borrow_last_ix_check_order (ctx : LoanCtx) (st : LoanState) (a : Nat)
    (last_ix : Instruction)
    (h0 : 0 < a) (hbal : a ≤ st.protocolAtaBalance)
    (hidx : load_current_index_checked ctx.instructions = 0)
    (hlast : load_instruction_at_checked (call_count ctx.instructions - 1)
      ctx.instructions = some last_ix) :
    (last_ix.program_id ≠ programId →
      borrow ctx st a = .err (.protocol .InvalidProgram) (after_transfer st a)) ∧
    (last_ix.program_id = programId → 8 ≤ last_ix.data.length →
      last_ix.data.take 8 ≠ repayDiscriminator →
      borrow ctx st a = .err (.protocol .InvalidIx) (after_transfer st a)) ∧
    (∀ m3, last_ix.program_id = programId →
      last_ix.data.take 8 = repayDiscriminator →
      last_ix.accounts[3]? = some m3 → m3.pubkey ≠ ctx.borrowerAta →
      borrow ctx st a = .err (.protocol .InvalidBorrowerAta) (after_transfer st a)) ∧
    (∀ m3 m4, last_ix.program_id = programId →
      last_ix.data.take 8 = repayDiscriminator →
      last_ix.accounts[3]? = some m3 → m3.pubkey = ctx.borrowerAta →
      last_ix.accounts[4]? = some m4 → m4.pubkey ≠ ctx.protocolAta →
      borrow ctx st a = .err (.protocol .InvalidProtocolAta) (after_transfer st a)) := by
  rw [borrow_reaches_checks ctx st a last_ix h0 hbal hidx hlast]
  refine ⟨?_, ?_, ?_, ?_⟩
  · intro hpid
    unfold repay_ix_checks
    simp [hpid]
  · intro hpid hlen htag
    unfold repay_ix_checks
    simp [hpid, Nat.not_lt.mpr hlen, htag]
  · intro m3 hpid htag hm3 hne
    unfold repay_ix_checks
    simp [hpid, take8_ge _ htag, htag, hm3, hne]
  · intro m3 m4 hpid htag hm3 heq hm4 hne
    unfold repay_ix_checks
    simp [hpid, take8_ge _ htag, htag, hm3, heq, hm4, hne]

/-- Witness for C6: a transaction whose last instruction is a Repay-tagged
instruction of a different program fails with InvalidProgram. -/
theorem borrow_last_ix_check_order_witness :
    borrow ctxWrongProgram stGood 5 =
      .err (.protocol .InvalidProgram) (after_transfer stGood 5) :=
  (borrow_last_ix_check_order ctxWrongProgram stGood 5 wrongProgramRepayIx
    (by decide) (by decide) (by decide) (by decide)).1 (by decide)

/-- Claim C7: encoding a Borrow payload as the 8-byte tag followed by the
amount as 8 little-endian bytes and then decoding bytes 8 to 16 as a
little-endian u64, as the repay operation does, yields the amount back,
for every u64 amount. -/
theorem borrow_payload_roundtrip (a : Nat) (ha : a ≤ U64_MAX) :
    u64_from_le_bytes (((borrow_ix_data a).drop 8).take 8) = a := by
  have h8 : (borrow_ix_data a).drop 8 = u64_to_le_bytes a := by
    unfold borrow_ix_data borrowDiscriminator
    simp
  have htake : (u64_to_le_bytes a).take 8 = u64_to_le_bytes a := by
    unfold u64_to_le_bytes; simp
  rw [h8, htake]
  exact u64_le_bytes_roundtrip a ha

/-- Witness for C7: the round trip at the amounts 0, 1 and U64_MAX. -/
theorem borrow_payload_roundtrip_witness :
    u64_from_le_bytes (((borrow_ix_data 0).drop 8).take 8) = 0 ∧
    u64_from_le_bytes (((borrow_ix_data 1).drop 8).take 8) = 1 ∧
    u64_from_le_bytes (((borrow_ix_data U64_MAX).drop 8).take 8) = U64_MAX :=
  ⟨borrow_payload_roundtrip 0 (by decide),
   borrow_payload_roundtrip 1 (by decide),
   borrow_payload_roundtrip U64_MAX (by decide)⟩

/-- Claim C8: when the decoded borrow amount plus its fee exceeds U64_MAX,
the repay operation fails with the Overflow error before attempting a
transfer, returning the balances unchanged. -/
theorem repay_overflow_before_transfer (ctx : LoanCtx) (st : LoanState)
    (borrow_ix : Instruction)
    (hfirst : load_instruction_at_checked 0 ctx.instructions = some borrow_ix)
    (hlen : 16 ≤ borrow_ix.data.length)
    (hov : U64_MAX < u64_from_le_bytes ((borrow_ix.data.drop 8).take 8) +
      fee (u64_from_le_bytes ((borrow_ix.data.drop 8).take 8))) :
    repay ctx st = .err (.protocol .Overflow) st := by
  unfold repay
  rw [hfirst]
  simp [Nat.not_lt.mpr hlen, hov]

/-- Witness for C8: a transaction whose Borrow encodes the amount U64_MAX
makes repay fail with Overflow, leaving the balances unchanged. -/
theorem repay_overflow_before_transfer_witness :
    repay ctxMaxBorrow ⟨0, 0⟩ = .err (.protocol .Overflow) ⟨0, 0⟩ :=
  repay_overflow_before_transfer ctxMaxBorrow ⟨0, 0⟩ maxBorrowIx
    (by decide) (by decide) (by decide)

/-- Claim C9: once borrow validates the fetched last instruction past the
program and tag checks, an account list with fewer than 4 entries fails
with InvalidBorrowerAta, and an account list with exactly 4 entries whose
position-3 entry matches the borrower token account fails with
InvalidProtocolAta: both missing entries surface as protocol errors
through the Option returned by the list lookup, not as an out-of-range
abort. -/
theorem borrow_missing_account_entries (ctx : LoanCtx) (st : LoanState)
    (a : Nat) (last_ix : Instruction)
    (h0 : 0 < a) (hbal : a ≤ st.protocolAtaBalance)
    (hidx : load_current_index_checked ctx.instructions = 0)
    (hlast : load_instruction_at_checked (call_count ctx.instructions - 1)
      ctx.instructions = some last_ix)
    (hpid : last_ix.program_id = programId)
    (htag : last_ix.data.take 8 = repayDiscriminator) :
    (last_ix.accounts.length < 4 →
      borrow ctx st a = .err (.protocol .InvalidBorrowerAta) (after_transfer st a)) ∧
    (last_ix.accounts.length = 4 →
      (∀ m3, last_ix.accounts[3]? = some m3 → m3.pubkey = ctx.borrowerAta) →
      borrow ctx st a = .err (.protocol .InvalidProtocolAta) (after_transfer st a)) := by
  rw [borrow_reaches_checks ctx st a last_ix h0 hbal hidx hlast]
  constructor
  · intro hshort
    have hm3 : last_ix.accounts[3]? = none := by
      rw [List.getElem?_eq_none_iff]; omega
    unfold repay_ix_checks
    simp [hpid, take8_ge _ htag, htag, hm3]
  · intro h4 hmatch
    cases hm3 : last_ix.accounts[3]? with
    | none =>
      rw [List.getElem?_eq_none_iff] at hm3; omega
    | some m3 =>
      have hm4 : last_ix.accounts[4]? = none := by
        rw [List.getElem?_eq_none_iff]; omega
      unfold repay_ix_checks
      simp [hpid, take8_ge _ htag, htag, hm3, hmatch m3 hm3, hm4]

/-- Witness for C9: a transaction whose last instruction is a well-tagged
Repay of this program with only 3 accounts fails with InvalidBorrowerAta. -/
theorem borrow_missing_account_entries_witness :
    borrow ctxFewAccounts stGood 5 =
      .err (.protocol .InvalidBorrowerAta) (after_transfer stGood 5) :=
  (borrow_missing_account_entries ctxFewAccounts stGood 5 fewAccountsRepayIx
    (by decide) (by decide) (by decide) (by decide) (by decide) (by decide)).1
    (by decide)

/-- Claim C10: the repay operation reads the borrowed amount from the data
of the first instruction of the transaction without inspecting its program
identity, tag or accounts (changing them changes nothing in the result),
and when that data is shorter than 16 bytes repay aborts through an
out-of-range slice (a panic), not through a protocol error. -/
theorem repay_unchecked_first_ix :
    (∀ (ctx : LoanCtx) (st : LoanState) (borrow_ix : Instruction),
      load_instruction_at_checked 0 ctx.instructions = some borrow_ix →
      borrow_ix.data.length < 16 →
      repay ctx st = .panic) ∧
    (∀ (bAta pAta : Pubkey) (ci : Nat) (pid1 pid2 : Pubkey)
      (accs1 accs2 : List AccountMeta) (d : List Byte)
      (rest : List Instruction) (st : LoanState),
      repay ⟨bAta, pAta, ⟨ci, ⟨pid1, accs1, d⟩ :: rest⟩⟩ st =
      repay ⟨bAta, pAta, ⟨ci, ⟨pid2, accs2, d⟩ :: rest⟩⟩ st) := by
  constructor
  · intro ctx st borrow_ix hfirst hshort
    unfold repay
    rw [hfirst]
    simp [hshort]
  · intro bAta pAta ci pid1 pid2 accs1 accs2 d rest st
    unfold repay load_instruction_at_checked
    simp only [List.getElem?_cons_zero]

/-- Witness for C10: a transaction whose first instruction carries only the
8-byte Repay tag makes repay abort with a panic. -/
theorem repay_unchecked_first_ix_witness :
    repay ctxRepayOnly stGood = .panic :=
  repay_unchecked_first_ix.1 ctxRepayOnly stGood sampleRepayIx
    (by decide) (by decide)

end FlashLoan
